import Mathlib

/-!
# TimeLock Vault — verification of the server-side vault protocol

Shallow embedding of `server/server.py`: the duration table, the signer,
the key-custody store, the encryption transaction (`_encrypt`) and the
decryption gate (`_decrypt`).

Modelling conventions:
* Bytes are `List Nat`; the wall clock `time.time()` is an integer number
  of seconds (`Int`), so the float fraction of a second is dropped — the
  source itself truncates with `int(...)` everywhere it surfaces a time.
* The external AES-GCM primitive (`cryptography.hazmat...AESGCM`) is
  idealized symbolically: a ciphertext remembers the key, nonce and
  plaintext it was produced from, and decryption succeeds exactly when it
  is presented with that key and nonce.  AEAD-tag rejection of a
  ciphertext is the statement `gcmDecrypt key nonce c = none`.
* The external `hashlib.sha256(..).hexdigest()[:32]` is idealized as an
  injective deterministic tag (a random oracle without collisions): equal
  byte strings give equal tags, distinct byte strings give distinct tags.
* The external `base64` codec is modelled by tagging each value sitting in
  the `nonce`/`ct` slot of a parsed payload with whether it decodes:
  `b64 x` is a JSON string that is well-formed base64 of `x`; `bad` is any
  truthy value on which `base64.b64decode` raises (the source catches that
  exception inside the AEAD `try` block and reports a decryption failure).
* The external `datetime...isoformat()` rendering is idealized as an
  injective rendering of the timestamp; its exact text never steers the
  protocol logic.
* The sqlite `vault` table is a list of custody records; `INSERT` appends
  (a primary-key collision is the `duplicateId` outcome and inserts
  nothing, mirroring sqlite's atomic rejection), `SELECT ... WHERE id=?`
  is a first-match lookup.
* `_decrypt` is modelled from the point where the request body has parsed
  as a JSON object; the `id`, `original` and `_sig` slots are modelled as
  strings (any JSON scalar would stringify through the f-string in `sign`,
  but every claim concerns string-valued slots), the `unlock_at` slot may
  hold an integer or a string, which is what the type-confusion claim
  needs.  Python truthiness of each slot is modelled explicitly because
  the field-presence check is `all([...])`.
-/

/-- The fixed duration table `DURATIONS` of `server.py` (token ↦ seconds). -/
def DURATIONS : List (String × Int) :=
  [("1h", 3600), ("2h", 7200), ("6h", 21600), ("12h", 43200),
   ("1d", 86400), ("1day", 86400), ("3d", 259200), ("3days", 259200),
   ("1week", 604800), ("2weeks", 1209600), ("1month", 2592000),
   ("3months", 7776000), ("6months", 15552000), ("1year", 31536000)]

/-- `duration.lower()` — lowercasing of the token, modelled for ASCII text
(every duration token is ASCII); written over the character list so that
it evaluates by kernel reduction. -/
def pyLower (s : String) : String := String.mk (s.data.map Char.toLower)

/-- `DURATIONS.get(duration.lower())` — the case-insensitive duration lookup. -/
def resolveDuration (token : String) : Option Int :=
  DURATIONS.lookup (pyLower token)

/-- Idealized model of the external `hashlib.sha256(..).hexdigest()[:32]`:
a deterministic tag whose collision resistance is idealized as injectivity
(the identity on the hashed byte string). -/
def sha256hex32 (msg : String) : String := msg

/-- `sign(payload)` of `server.py`: the tag over
`SECRET + f"{payload['id']}:{payload['unlock_at']}"`.  The second argument
is the Python `str(...)` rendering of whatever sits in the `unlock_at`
slot, exactly as the f-string produces it. -/
def signTag (secret i unlockAtStr : String) : String :=
  sha256hex32 (secret ++ i ++ ":" ++ unlockAtStr)

/-- Idealized model of the external
`datetime.fromtimestamp(t, tz=timezone.utc).isoformat()`: an injective
rendering of the timestamp. -/
def unlockIsoOf (t : Int) : String := "1970-01-01T00:00:00+" ++ toString t

/-- `fmt_countdown` of `server.py`, on an integral number of seconds
(the source passes a positive float and truncates it with `int(s)`;
Python `//`/`%` are floor division and floor modulus, i.e. `Int.fdiv` /
`Int.fmod`). -/
def fmt_countdown (s : Int) : String :=
  let p1 : List String :=
    if s.fdiv 86400 ≠ 0 then [toString (s.fdiv 86400) ++ "d"] else []
  let p2 : List String :=
    p1 ++ (if (s.fmod 86400).fdiv 3600 ≠ 0 then
      [toString ((s.fmod 86400).fdiv 3600) ++ "h"] else [])
  let p3 : List String :=
    p2 ++ (if (s.fmod 3600).fdiv 60 ≠ 0 then
      [toString ((s.fmod 3600).fdiv 60) ++ "m"] else [])
  let p4 : List String :=
    p3 ++ (if s.fmod 60 ≠ 0 ∨ p3 = [] then [toString (s.fmod 60) ++ "s"] else [])
  String.intercalate " " p4

/-- Idealized symbolic ciphertext of the external AES-GCM primitive: it
records the key, nonce and plaintext of the encryption that produced it. -/
structure GcmCt where
  key : List Nat
  nonce : List Nat
  body : List Nat
deriving DecidableEq

/-- `AESGCM(key).encrypt(nonce, raw, None)`. -/
def gcmEncrypt (key nonce pt : List Nat) : GcmCt := ⟨key, nonce, pt⟩

/-- `AESGCM(key).decrypt(nonce, ct, None)`: succeeds exactly when the
ciphertext was produced under this key and nonce; `none` is the
`InvalidTag` exception (authentication-tag rejection). -/
def gcmDecrypt (key nonce : List Nat) (c : GcmCt) : Option (List Nat) :=
  if c.key = key ∧ c.nonce = nonce then some c.body else none

/-- One row of the sqlite `vault` table (a persisted key-custody record). -/
structure KeyCustodyRecord where
  id : String
  aes_key : List Nat
  unlock_at : Int
  created_at : Int
  original : String
deriving DecidableEq

/-- `SELECT ... FROM vault WHERE id=?` — first-match lookup by id. -/
def lookupVault (store : List KeyCustodyRecord) (i : String) :
    Option KeyCustodyRecord :=
  store.find? (fun r => r.id == i)

/-- A JSON value as it appears in the serialized artifact: an integer, a
plain string, a string holding well-formed base64 of some bytes, or a
string holding well-formed base64 of a serialized AEAD ciphertext. -/
inductive JVal where
  | jint (n : Int)
  | jstr (s : String)
  | jb64 (bs : List Nat)
  | jb64ct (c : GcmCt)
deriving DecidableEq

/-- The value sitting in the `unlock_at` slot of a parsed payload: a JSON
integer or a JSON string. -/
inductive JTime where
  | jint (n : Int)
  | jstr (s : String)
deriving DecidableEq

/-- The Python `str(...)` / f-string rendering of the slot value, as used
by `sign`. -/
def JTime.pyStr : JTime → String
  | .jint n => toString n
  | .jstr s => s

/-- Python truthiness of the slot value (`0` and `""` are falsy). -/
def JTime.truthy : JTime → Bool
  | .jint n => n != 0
  | .jstr s => s != ""

/-- The value sitting in the `nonce` slot of a parsed payload.  `b64 bs`
is a JSON string that is well-formed base64 of the bytes `bs`; `bad` is
any truthy value on which `base64.b64decode` raises (malformed base64, or
a non-string on which it raises `TypeError`); `falsy` is a present but
falsy value such as `""`, `0` or `null`. -/
inductive NonceField where
  | b64 (bs : List Nat)
  | bad
  | falsy
deriving DecidableEq

/-- Python truthiness of the `nonce` slot value.  The base64 text of `bs`
is the empty (falsy) string exactly when `bs` is empty. -/
def NonceField.truthy : NonceField → Bool
  | .b64 bs => bs != []
  | .bad => true
  | .falsy => false

/-- The value sitting in the `ct` slot of a parsed payload; constructors
as in `NonceField`. -/
inductive CtField where
  | b64 (c : GcmCt)
  | bad
  | falsy
deriving DecidableEq

/-- Python truthiness of the `ct` slot value.  A serialized AEAD
ciphertext carries its 16-byte tag, so its base64 text is never empty. -/
def CtField.truthy : CtField → Bool
  | .b64 _ => true
  | .bad => true
  | .falsy => false

/-- A request body that parsed as a JSON object, projected onto the six
keys `_decrypt` reads (`payload.get(...)`); `none` is an absent key. -/
structure TlpPayload where
  id : Option String
  unlock_at : Option JTime
  original : Option String
  nonce : Option NonceField
  ct : Option CtField
  sig : Option String
deriving DecidableEq

/-- `all([key_id, unlock_at, nonce_b64, ct_b64])` — Python truthiness of
the four checked slots (`_sig` is not among them). -/
def fieldsPresent (p : TlpPayload) : Bool :=
  (match p.id with | some s => s != "" | none => false) &&
  (match p.unlock_at with | some t => t.truthy | none => false) &&
  (match p.nonce with | some n => n.truthy | none => false) &&
  (match p.ct with | some c => c.truthy | none => false)

/-- The outcome of the decryption gate.  `typeFault` is the uncaught
Python `TypeError` raised by `now < unlock_at` when the slot holds a
string (surfaced as an unhandled 500, not a categorical error). -/
inductive DecryptOutcome where
  | malformed
  | integrityFailure
  | locked (remainingSeconds : Int) (remainingHuman : String)
      (unlockAt : Int) (unlockIso : String)
  | keyNotFound
  | typeFault
  | decryptionFailed
  | success (pt : List Nat) (original : String)
deriving DecidableEq

/-- `_decrypt` of `server.py`, from the point where the body has parsed as
a JSON object; paired with the store it leaves behind (the transaction
only ever runs a `SELECT`). -/
def decryptStep (secret : String) (now : Int)
    (store : List KeyCustodyRecord) (p : TlpPayload) :
    DecryptOutcome × List KeyCustodyRecord :=
  if fieldsPresent p = false then (.malformed, store)
  else
    let key_id := p.id.getD ""
    let original := p.original.getD "decrypted_file"
    let ut := p.unlock_at.getD (.jint 0)
    if p.sig ≠ some (signTag secret key_id ut.pyStr) then
      (.integrityFailure, store)
    else
      match ut with
      | .jstr _ => (.typeFault, store)
      | .jint u =>
        if now < u then
          (.locked (u - now) (fmt_countdown (u - now)) u (unlockIsoOf u), store)
        else
          match lookupVault store key_id with
          | none => (.keyNotFound, store)
          | some r =>
            match p.nonce.getD .bad, p.ct.getD .bad with
            | .b64 nb, .b64 c =>
              match gcmDecrypt r.aes_key nb c with
              | some pt => (.success pt original, store)
              | none => (.decryptionFailed, store)
            | _, _ => (.decryptionFailed, store)

/-- The locked artifact `_encrypt` builds (the `payload` dict plus its
`_sig`). -/
structure TlpArtifact where
  v : Int
  id : String
  unlock_at : Int
  unlock_iso : String
  original : String
  nonce : List Nat
  ct : GcmCt
  sig : String
deriving DecidableEq

/-- The artifact `_encrypt` assembles for a given id, unlock time,
filename, nonce and ciphertext. -/
def mkArtifact (secret keyId : String) (unlockAt : Int) (filename : String)
    (nonce : List Nat) (ct : GcmCt) : TlpArtifact :=
  { v := 1, id := keyId, unlock_at := unlockAt,
    unlock_iso := unlockIsoOf unlockAt, original := filename,
    nonce := nonce, ct := ct,
    sig := signTag secret keyId (toString unlockAt) }

/-- The custody row `_encrypt` inserts
(`INSERT INTO vault VALUES (?,?,?,?,?)`). -/
def mkRecord (keyId : String) (key : List Nat) (unlockAt createdAt : Int)
    (filename : String) : KeyCustodyRecord :=
  ⟨keyId, key, unlockAt, createdAt, filename⟩

/-- The outcome of the encryption transaction.  `duplicateId` is the
sqlite primary-key violation on `INSERT` (the insert is atomically
rejected and no response artifact is built). -/
inductive EncryptOutcome where
  | emptyInput
  | tooLarge
  | unknownDuration
  | duplicateId
  | ok (a : TlpArtifact)
deriving DecidableEq

def EncryptOutcome.isOk : EncryptOutcome → Bool
  | .ok _ => true
  | _ => false

/-- `_encrypt` of `server.py`.  The fresh key, nonce and id that the
source draws from `secrets` are explicit inputs; `now` stands for both
`int(time.time())` calls (a single-instant model of the transaction);
paired with the store it leaves behind. -/
def encryptStep (secret : String) (now : Int) (maxBytes : Nat)
    (key nonce : List Nat) (keyId duration filename : String)
    (raw : List Nat) (store : List KeyCustodyRecord) :
    EncryptOutcome × List KeyCustodyRecord :=
  if raw = [] then (.emptyInput, store)
  else if maxBytes < raw.length then (.tooLarge, store)
  else
    match resolveDuration duration with
    | none => (.unknownDuration, store)
    | some secs =>
      let unlockAt := now + secs
      let ct := gcmEncrypt key nonce raw
      if (lookupVault store keyId).isSome then (.duplicateId, store)
      else (.ok (mkArtifact secret keyId unlockAt filename nonce ct),
            store ++ [mkRecord keyId key unlockAt now filename])

/-- `json.dumps(payload)`: the on-the-wire JSON object of an artifact, as
the ordered association list of its fields (Python dicts preserve
insertion order; `_sig` is set last). -/
def serializeArtifact (a : TlpArtifact) : List (String × JVal) :=
  [("v", .jint a.v), ("id", .jstr a.id), ("unlock_at", .jint a.unlock_at),
   ("unlock_iso", .jstr a.unlock_iso), ("original", .jstr a.original),
   ("nonce", .jb64 a.nonce), ("ct", .jb64ct a.ct), ("_sig", .jstr a.sig)]

/-- The payload a client obtains by saving the returned artifact and
sending it back to `/de`: each serialized field parses back into the slot
it was written from. -/
def artifactToPayload (a : TlpArtifact) : TlpPayload :=
  { id := some a.id, unlock_at := some (.jint a.unlock_at),
    original := some a.original, nonce := some (.b64 a.nonce),
    ct := some (.b64 a.ct), sig := some a.sig }

/-! ## Supporting lemmas -/

/-- `Char.toLower` is idempotent: lowercasing an already-lowercased
character changes nothing. -/
theorem char_toLower_idem (c : Char) : c.toLower.toLower = c.toLower := by
  unfold Char.toLower
  by_cases h : 65 ≤ c.toNat ∧ c.toNat ≤ 90
  · rw [if_pos h]
    have hv : Nat.isValidChar (c.toNat + 32) := Or.inl (by omega)
    have ht : (Char.ofNat (c.toNat + 32)).toNat = c.toNat + 32 := by
      rw [Char.ofNat, dif_pos hv]
      rfl
    rw [if_neg (by omega)]
  · rw [if_neg h, if_neg h]

/-- `pyLower` is idempotent. -/
theorem pyLower_idem (s : String) : pyLower (pyLower s) = pyLower s := by
  unfold pyLower
  congr 1
  rw [List.map_map]
  exact List.map_congr_left fun c _ => char_toLower_idem c

/-- Every value in the duration table is positive. -/
theorem durations_pos (s : String) (v : Int)
    (h : DURATIONS.lookup s = some v) : 0 < v := by
  unfold DURATIONS at h
  simp [List.lookup] at h
  repeat' split at h
  all_goals
    (first | omega | (injection h with h2; omega) | exact Option.noConfusion h)

/-- Once the four-slot presence check has passed, no later state of the
decryption gate returns `Malformed`. -/
theorem not_malformed_of_present (secret : String) (now : Int)
    (store : List KeyCustodyRecord) (p : TlpPayload)
    (hp : fieldsPresent p = true) :
    (decryptStep secret now store p).1 ≠ .malformed := by
  unfold decryptStep
  rw [if_neg (by simp [hp])]
  dsimp only
  repeat' split
  all_goals simp

/-! ## Claim theorems -/

/-- C1: for every non-empty plaintext within the size limit, every
duration token the table resolves, and every filename, encryption
succeeds, and decrypting the returned artifact at any time at or after
its `unlock_at` (with the store the encryption left behind) returns
exactly the plaintext and surfaces exactly the filename as the original
name.  The fresh id is non-empty and not already in the store, and the
fresh nonce is non-empty, as `secrets.token_urlsafe(16)` /
`secrets.token_bytes(12)` guarantee; the clock is a Unix timestamp
(`0 ≤ now`). -/
theorem roundTrip_decrypts_after_unlock
    (secret keyId duration filename : String) (raw key nonce : List Nat)
    (now now2 : Int) (maxBytes : Nat) (secs : Int)
    (store : List KeyCustodyRecord)
    (hraw : raw ≠ []) (hsize : raw.length ≤ maxBytes)
    (hdur : resolveDuration duration = some secs)
    (hfresh : lookupVault store keyId = none)
    (hid : keyId ≠ "") (hnonce : nonce ≠ []) (hnow : 0 ≤ now)
    (hafter : now + secs ≤ now2) :
    (encryptStep secret now maxBytes key nonce keyId duration filename raw store).1
      = .ok (mkArtifact secret keyId (now + secs) filename nonce
          (gcmEncrypt key nonce raw)) ∧
    (decryptStep secret now2
        (encryptStep secret now maxBytes key nonce keyId duration filename raw store).2
        (artifactToPayload (mkArtifact secret keyId (now + secs) filename nonce
          (gcmEncrypt key nonce raw)))).1
      = .success raw filename := by
  have hpos : 0 < secs := durations_pos (pyLower duration) secs hdur
  have henc :
      encryptStep secret now maxBytes key nonce keyId duration filename raw store =
        (.ok (mkArtifact secret keyId (now + secs) filename nonce
          (gcmEncrypt key nonce raw)),
         store ++ [mkRecord keyId key (now + secs) now filename]) := by
    unfold encryptStep
    rw [if_neg hraw, if_neg (by omega), hdur]
    dsimp only
    rw [if_neg (by simp [hfresh])]
  refine ⟨by rw [henc], ?_⟩
  rw [henc]
  have hlook : lookupVault (store ++ [mkRecord keyId key (now + secs) now filename]) keyId
      = some (mkRecord keyId key (now + secs) now filename) := by
    unfold lookupVault at *
    rw [List.find?_append, hfresh]
    simp [mkRecord]
  unfold decryptStep fieldsPresent artifactToPayload mkArtifact
  dsimp only
  rw [if_neg (by simp [hid, JTime.truthy, NonceField.truthy, CtField.truthy, hnonce]; omega)]
  rw [if_neg (by simp [JTime.pyStr])]
  simp only [Option.getD_some]
  rw [if_neg (by omega), hlook]
  simp [mkRecord, gcmDecrypt, gcmEncrypt]

/-- C1 witness: `[104, 105]` locked for `"1h"` at time 1000 decrypts to
itself at time 9999 with the original filename. -/
theorem roundTrip_decrypts_after_unlock_witness :
    (encryptStep "s" 1000 100 [1, 2] [3, 4] "k" "1h" "f.txt" [104, 105] []).1
      = .ok (mkArtifact "s" "k" (1000 + 3600) "f.txt" [3, 4]
          (gcmEncrypt [1, 2] [3, 4] [104, 105])) ∧
    (decryptStep "s" 9999
        (encryptStep "s" 1000 100 [1, 2] [3, 4] "k" "1h" "f.txt" [104, 105] []).2
        (artifactToPayload (mkArtifact "s" "k" (1000 + 3600) "f.txt" [3, 4]
          (gcmEncrypt [1, 2] [3, 4] [104, 105])))).1
      = .success [104, 105] "f.txt" :=
  roundTrip_decrypts_after_unlock "s" "k" "1h" "f.txt" [104, 105] [1, 2] [3, 4]
    1000 9999 100 3600 [] (by decide) (by decide) (by decide) (by decide)
    (by decide) (by decide) (by decide) (by decide)

/-- C2: an artifact that passes the presence check and carries the
correct signature over its integer `unlock_at`, presented strictly before
`unlock_at`, yields `Locked` with `remaining_seconds = unlock_at - now`,
the countdown string, `unlock_at` and its ISO rendering — for every store
and for arbitrary (even undecodable) nonce/ct slots, so the branch
touches neither the store nor the ciphertext, and no plaintext or key
material is returned. -/
theorem locked_before_unlock (secret : String) (now u : Int)
    (store : List KeyCustodyRecord) (i : String) (orig : Option String)
    (nf : NonceField) (cf : CtField)
    (hi : i ≠ "") (hu : u ≠ 0) (hnf : nf.truthy = true) (hcf : cf.truthy = true)
    (hlt : now < u) :
    decryptStep secret now store
      ⟨some i, some (.jint u), orig, some nf, some cf,
        some (signTag secret i (toString u))⟩ =
      (.locked (u - now) (fmt_countdown (u - now)) u (unlockIsoOf u), store) := by
  unfold decryptStep fieldsPresent
  simp [hi, hu, hnf, hcf, hlt, JTime.truthy, JTime.pyStr]

/-- C2 witness: at time 2000, an artifact locked until 5000 reports
3000 remaining seconds. -/
theorem locked_before_unlock_witness :
    decryptStep "s" 2000 []
      ⟨some "k", some (.jint 5000), some "f", some (.b64 [1]),
        some (.b64 ⟨[1], [2], [3]⟩), some (signTag "s" "k" (toString (5000 : Int)))⟩ =
      (.locked (5000 - 2000) (fmt_countdown (5000 - 2000)) 5000 (unlockIsoOf 5000), []) :=
  locked_before_unlock "s" 2000 5000 [] "k" (some "f") (.b64 [1])
    (.b64 ⟨[1], [2], [3]⟩) (by decide) (by decide) (by decide) (by decide)
    (by decide)

/-- C3: whenever the carried `_sig` differs from the tag recomputed over
the payload's `id` and `unlock_at`, the gate returns `IntegrityFailure`
for every clock value and every store — in particular it never reaches
the time gate, the store lookup or AEAD decryption, so a wrong-secret
artifact whose id is absent from the store still yields
`IntegrityFailure`, not `KeyNotFound` or `Locked`. -/
theorem integrity_precedes_lookup (secret : String) (now : Int)
    (store : List KeyCustodyRecord) (p : TlpPayload)
    (hpres : fieldsPresent p = true)
    (hsig : p.sig ≠ some (signTag secret (p.id.getD "")
      ((p.unlock_at.getD (.jint 0)).pyStr))) :
    (decryptStep secret now store p).1 = .integrityFailure := by
  unfold decryptStep
  simp [hpres, hsig]

/-- C3 witness: an artifact signed with the wrong secret, with an id
absent from the (empty) store and an unlock time long past, yields
`IntegrityFailure`. -/
theorem integrity_precedes_lookup_witness :
    (decryptStep "right" 99999 []
      ⟨some "k", some (.jint 100), some "f", some (.b64 [1]),
        some (.b64 ⟨[1], [2], [3]⟩), some (signTag "wrong" "k" "100")⟩).1
      = .integrityFailure :=
  integrity_precedes_lookup "right" 99999 []
    ⟨some "k", some (.jint 100), some "f", some (.b64 [1]),
      some (.b64 ⟨[1], [2], [3]⟩), some (signTag "wrong" "k" "100")⟩
    (by decide) (by decide)

/-- C4 counterexample: a payload with `id`, `unlock_at`, `nonce` and `ct`
present but `_sig` absent is NOT reported as `Malformed` — the presence
check `all([key_id, unlock_at, nonce_b64, ct_b64])` does not cover
`_sig`, so the gate reaches the signature comparison and returns
`IntegrityFailure`, contradicting the claim that any of the five missing
fields yields `Malformed`. -/
theorem missing_sig_not_malformed_cex :
    (decryptStep "s" 0 []
      ⟨some "k", some (.jint 100), some "f", some (.b64 [1]),
        some (.b64 ⟨[1], [2], [3]⟩), none⟩).1 = .integrityFailure ∧
    (decryptStep "s" 0 []
      ⟨some "k", some (.jint 100), some "f", some (.b64 [1]),
        some (.b64 ⟨[1], [2], [3]⟩), none⟩).1 ≠ .malformed := by
  decide

/-- C4 (amended): the gate returns `Malformed` exactly when one of the
four checked slots `id`, `unlock_at`, `nonce`, `ct` is absent or falsy;
the `signature` slot is not part of that check, and a payload whose four
checked slots are present but whose `_sig` is absent instead fails the
signature comparison and returns `IntegrityFailure`. -/
theorem malformed_iff_missing_fields (secret : String) (now : Int)
    (store : List KeyCustodyRecord) (p : TlpPayload) :
    ((decryptStep secret now store p).1 = .malformed ↔ fieldsPresent p = false) ∧
    (fieldsPresent p = true → p.sig = none →
      (decryptStep secret now store p).1 = .integrityFailure) := by
  refine ⟨⟨fun h => ?_, fun h => ?_⟩, fun hp hs => ?_⟩
  · by_contra hf
    rw [Bool.not_eq_false] at hf
    exact not_malformed_of_present secret now store p hf h
  · unfold decryptStep
    rw [if_pos h]
  · unfold decryptStep
    rw [if_neg (by simp [hp])]
    dsimp only
    rw [if_pos (by simp [hs])]

/-- C4 witness: a payload with the four checked slots present and `_sig`
absent returns `IntegrityFailure`. -/
theorem malformed_iff_missing_fields_witness :
    (decryptStep "t" 7 []
      ⟨some "id1", some (.jint 50), none, some (.b64 [2]),
        some (.b64 ⟨[5], [6], [7]⟩), none⟩).1 = .integrityFailure :=
  (malformed_iff_missing_fields "t" 7 []
    ⟨some "id1", some (.jint 50), none, some (.b64 [2]),
      some (.b64 ⟨[5], [6], [7]⟩), none⟩).2 (by decide) rfl

/-- C5: the encryption transaction is atomic over the store — a
successful call appends exactly the one custody record it mints, and
every non-successful call (empty input, oversized input, unknown
duration, duplicate id) leaves the store exactly as it was. -/
theorem encrypt_atomic_persistence (secret : String) (now : Int)
    (maxBytes : Nat) (key nonce : List Nat) (keyId duration filename : String)
    (raw : List Nat) (store : List KeyCustodyRecord) :
    ((encryptStep secret now maxBytes key nonce keyId duration filename raw store).1.isOk = true →
      (encryptStep secret now maxBytes key nonce keyId duration filename raw store).2 =
        store ++ [mkRecord keyId key (now + ((resolveDuration duration).getD 0)) now filename]) ∧
    ((encryptStep secret now maxBytes key nonce keyId duration filename raw store).1.isOk = false →
      (encryptStep secret now maxBytes key nonce keyId duration filename raw store).2 = store) := by
  unfold encryptStep
  split
  · exact ⟨by simp [EncryptOutcome.isOk], fun _ => rfl⟩
  · split
    · exact ⟨by simp [EncryptOutcome.isOk], fun _ => rfl⟩
    · split
      · exact ⟨by simp [EncryptOutcome.isOk], fun _ => rfl⟩
      · rename_i secs hsecs
        split
        · exact ⟨by simp [EncryptOutcome.isOk], fun _ => rfl⟩
        · refine ⟨fun _ => ?_, by simp [EncryptOutcome.isOk]⟩
          simp [hsecs]

/-- C5 witness: a successful call on the empty store leaves exactly the
one freshly minted record. -/
theorem encrypt_atomic_persistence_witness :
    (encryptStep "s" 1000 100 [1] [2] "kk" "1h" "f" [7] []).2
      = [] ++ [mkRecord "kk" [1] (1000 + ((resolveDuration "1h").getD 0)) 1000 "f"] :=
  (encrypt_atomic_persistence "s" 1000 100 [1] [2] "kk" "1h" "f" [7] []).1
    (by decide)

/-- C6: replacing the ciphertext of a valid, unlocked artifact with any
ciphertext the AEAD tag check rejects yields `DecryptionFailed` — never
success and never `IntegrityFailure`, because the signature is recomputed
from `id` and `unlock_at` only (the payload here carries the unmodified
original signature, which still verifies). -/
theorem tampered_ct_decryptionFailed (secret : String) (now u : Int)
    (store : List KeyCustodyRecord) (i : String) (orig : Option String)
    (nb : List Nat) (c' : GcmCt) (r : KeyCustodyRecord)
    (hi : i ≠ "") (hu : u ≠ 0) (hnb : nb ≠ [])
    (hge : ¬ now < u)
    (hlook : lookupVault store i = some r)
    (hrej : gcmDecrypt r.aes_key nb c' = none) :
    (decryptStep secret now store
      ⟨some i, some (.jint u), orig, some (.b64 nb), some (.b64 c'),
        some (signTag secret i (toString u))⟩).1 = .decryptionFailed := by
  unfold decryptStep fieldsPresent
  simp [hi, hu, hnb, hge, hlook, hrej, JTime.truthy, JTime.pyStr,
    NonceField.truthy, CtField.truthy]

/-- C6 witness: a record with key `[9]`, and a mutated ciphertext that was
not produced under that key, fail AEAD decryption after unlock. -/
theorem tampered_ct_decryptionFailed_witness :
    (decryptStep "s" 9999 [⟨"k", [9], 100, 50, "orig"⟩]
      ⟨some "k", some (.jint 100), some "f", some (.b64 [1]),
        some (.b64 ⟨[8], [1], [42]⟩),
        some (signTag "s" "k" (toString (100 : Int)))⟩).1 = .decryptionFailed :=
  tampered_ct_decryptionFailed "s" 9999 100 [⟨"k", [9], 100, 50, "orig"⟩] "k"
    (some "f") [1] ⟨[8], [1], [42]⟩ ⟨"k", [9], 100, 50, "orig"⟩
    (by decide) (by decide) (by decide) (by decide) (by decide) (by decide)

/-- C7: duration resolution lowercases its token before the table lookup
(so it is case-insensitive: resolving an already-lowercased token is the
same as resolving the original), maps every supported token — in both
cases — to its fixed seconds value, with `1year = 31536000` and
`1month = 2592000`, and an unsupported token such as `"bogus"` resolves
to `none`, on which the encryption transaction returns the
`unknownDuration` outcome and leaves the store unchanged rather than
faulting. -/
theorem durations_table_case_insensitive :
    (∀ t : String, resolveDuration (pyLower t) = resolveDuration t) ∧
    (∀ t : String, resolveDuration t = DURATIONS.lookup (pyLower t)) ∧
    resolveDuration "1h" = some 3600 ∧ resolveDuration "2h" = some 7200 ∧
    resolveDuration "6h" = some 21600 ∧ resolveDuration "12h" = some 43200 ∧
    resolveDuration "1d" = some 86400 ∧ resolveDuration "1day" = some 86400 ∧
    resolveDuration "3d" = some 259200 ∧ resolveDuration "3days" = some 259200 ∧
    resolveDuration "1week" = some 604800 ∧ resolveDuration "2weeks" = some 1209600 ∧
    resolveDuration "1month" = some 2592000 ∧ resolveDuration "3months" = some 7776000 ∧
    resolveDuration "6months" = some 15552000 ∧ resolveDuration "1year" = some 31536000 ∧
    resolveDuration "1YEAR" = some 31536000 ∧ resolveDuration "1Year" = some 31536000 ∧
    resolveDuration "1Month" = some 2592000 ∧ resolveDuration "12H" = some 43200 ∧
    resolveDuration "bogus" = none ∧
    (encryptStep "s" 1000 100 [1] [2] "k" "bogus" "f" [7] []).1 = .unknownDuration ∧
    (encryptStep "s" 1000 100 [1] [2] "k" "bogus" "f" [7] []).2 = [] := by
  refine ⟨fun t => ?_, fun t => rfl, by decide⟩
  unfold resolveDuration
  rw [pyLower_idem]

/-- C8: on the success path, the artifact is serialized as a JSON object
with exactly the fields `v`, `id`, `unlock_at`, `unlock_iso`, `original`,
`nonce`, `ct`, `_sig` in that order and no others, `unlock_at` is the
integer `now + resolved seconds`, and the `nonce`/`ct` slots hold the
base64 encodings of the nonce bytes and the ciphertext. -/
theorem artifact_wire_format (secret : String) (now : Int) (maxBytes : Nat)
    (key nonce : List Nat) (keyId duration filename : String)
    (raw : List Nat) (store : List KeyCustodyRecord) (secs : Int)
    (hraw : raw ≠ []) (hsize : raw.length ≤ maxBytes)
    (hdur : resolveDuration duration = some secs)
    (hfresh : lookupVault store keyId = none) :
    (encryptStep secret now maxBytes key nonce keyId duration filename raw store).1
      = .ok (mkArtifact secret keyId (now + secs) filename nonce
          (gcmEncrypt key nonce raw)) ∧
    (serializeArtifact (mkArtifact secret keyId (now + secs) filename nonce
        (gcmEncrypt key nonce raw))).map Prod.fst =
      ["v", "id", "unlock_at", "unlock_iso", "original", "nonce", "ct", "_sig"] ∧
    (serializeArtifact (mkArtifact secret keyId (now + secs) filename nonce
        (gcmEncrypt key nonce raw))).lookup "unlock_at" = some (.jint (now + secs)) ∧
    (serializeArtifact (mkArtifact secret keyId (now + secs) filename nonce
        (gcmEncrypt key nonce raw))).lookup "nonce" = some (.jb64 nonce) ∧
    (serializeArtifact (mkArtifact secret keyId (now + secs) filename nonce
        (gcmEncrypt key nonce raw))).lookup "ct" =
      some (.jb64ct (gcmEncrypt key nonce raw)) := by
  refine ⟨?_, by simp [serializeArtifact],
    by simp [serializeArtifact, List.lookup, mkArtifact],
    by simp [serializeArtifact, List.lookup, mkArtifact],
    by simp [serializeArtifact, List.lookup, mkArtifact]⟩
  unfold encryptStep
  rw [if_neg hraw, if_neg (by omega), hdur]
  dsimp only
  rw [if_neg (by simp [hfresh])]

/-- C8 witness: the wire format of a concrete successful encryption. -/
theorem artifact_wire_format_witness :
    (encryptStep "s" 1000 100 [1] [2] "k" "1h" "f" [7] []).1
      = .ok (mkArtifact "s" "k" (1000 + 3600) "f" [2] (gcmEncrypt [1] [2] [7])) ∧
    (serializeArtifact (mkArtifact "s" "k" (1000 + 3600) "f" [2]
        (gcmEncrypt [1] [2] [7]))).map Prod.fst =
      ["v", "id", "unlock_at", "unlock_iso", "original", "nonce", "ct", "_sig"] ∧
    (serializeArtifact (mkArtifact "s" "k" (1000 + 3600) "f" [2]
        (gcmEncrypt [1] [2] [7]))).lookup "unlock_at" = some (.jint (1000 + 3600)) ∧
    (serializeArtifact (mkArtifact "s" "k" (1000 + 3600) "f" [2]
        (gcmEncrypt [1] [2] [7]))).lookup "nonce" = some (.jb64 [2]) ∧
    (serializeArtifact (mkArtifact "s" "k" (1000 + 3600) "f" [2]
        (gcmEncrypt [1] [2] [7]))).lookup "ct" =
      some (.jb64ct (gcmEncrypt [1] [2] [7])) :=
  artifact_wire_format "s" 1000 100 [1] [2] "k" "1h" "f" [7] [] 3600
    (by decide) (by decide) (by decide) (by decide)

/-- C9: the decryption transaction never modifies the store (its only
database access is a read), and rerunning it on the store it returned —
same clock, same artifact — reproduces the same outcome, including the
same plaintext on success. -/
theorem decrypt_no_side_effects (secret : String) (now : Int)
    (store : List KeyCustodyRecord) (p : TlpPayload) :
    (decryptStep secret now store p).2 = store ∧
    decryptStep secret now (decryptStep secret now store p).2 p =
      decryptStep secret now store p := by
  have h : (decryptStep secret now store p).2 = store := by
    unfold decryptStep
    dsimp only
    repeat' split <;> try rfl
  exact ⟨h, by rw [h]⟩

/-- C10: the gate is not total — a payload whose `unlock_at` holds the
decimal string of the originally signed integer timestamp passes the
presence check, signs identically to the integer (the f-string in `sign`
renders both as the same text), passes the signature comparison, and then
raises an uncaught `TypeError` at `now < unlock_at` instead of returning
a categorical outcome. -/
theorem unlock_at_string_typeFault :
    fieldsPresent ⟨some "k", some (.jstr "2000"), some "f", some (.b64 [1]),
      some (.b64 ⟨[1], [2], [3]⟩), some (signTag "s" "k" "2000")⟩ = true ∧
    signTag "s" "k" ((JTime.jint 2000).pyStr) =
      signTag "s" "k" ((JTime.jstr "2000").pyStr) ∧
    (decryptStep "s" 9999 []
      ⟨some "k", some (.jstr "2000"), some "f", some (.b64 [1]),
        some (.b64 ⟨[1], [2], [3]⟩), some (signTag "s" "k" "2000")⟩).1 =
      .typeFault := by
  decide
